import Mathlib

/-!
Verification of the deck-building core of go-anki-deck.

The Go sources are shallowly embedded below: the SQLite tables of one
in-memory deck database become lists of typed rows, SQL statements become
pure functions on those lists, and the nondeterministic Go map iteration
order in updateDeckName/updateModel becomes an explicit argument that is
assumed to be a permutation of the map keys.  Machine integers (int64 in
Go) are modelled as Int; the SHA-1 hash used for note guids and checksums
is implemented in full over byte lists (Nat values below 256), with all
32-bit arithmetic taken modulo 2 ^ 32.
-/

set_option maxRecDepth 8192

namespace AnkiDeck

/-! ## SHA-1 (crypto/sha1), over lists of bytes -/

def two32 : Nat := 4294967296

/-- Rotate a 32-bit word (a Nat below 2 ^ 32) left by s bits. -/
def rotl (x s : Nat) : Nat := ((x <<< s) ||| (x >>> (32 - s))) % two32

/-- Big-endian 8-byte encoding of a Nat (used for the SHA-1 length word). -/
def be64 (n : Nat) : List Nat :=
  [(n >>> 56) &&& 255, (n >>> 48) &&& 255, (n >>> 40) &&& 255, (n >>> 32) &&& 255,
   (n >>> 24) &&& 255, (n >>> 16) &&& 255, (n >>> 8) &&& 255, n &&& 255]

/-- Big-endian 4-byte encoding of a 32-bit word. -/
def be32 (w : Nat) : List Nat :=
  [(w >>> 24) &&& 255, (w >>> 16) &&& 255, (w >>> 8) &&& 255, w &&& 255]

/-- SHA-1 padding: append 0x80, zero bytes up to 56 mod 64, then the
bit length as 8 big-endian bytes. -/
def sha1pad (msg : List Nat) : List Nat :=
  let len := msg.length
  let zeros := (119 - (len % 64)) % 64
  msg ++ (128 :: List.replicate zeros 0) ++ be64 (len * 8)

/-- Split a byte list into 64-byte chunks (fuel-based so that the kernel
can evaluate it; the input is always a padded message, a multiple of 64). -/
def chunksAux : Nat → List Nat → List (List Nat)
  | 0, _ => []
  | _, [] => []
  | fuel + 1, l => l.take 64 :: chunksAux fuel (l.drop 64)

def chunks64 (l : List Nat) : List (List Nat) := chunksAux (l.length / 64 + 1) l

/-- The 16 initial 32-bit message-schedule words of a 64-byte chunk. -/
def chunkWords (chunk : List Nat) : List Nat :=
  (List.range 16).map fun i =>
    ((chunk.getD (4 * i) 0) <<< 24) ||| ((chunk.getD (4 * i + 1) 0) <<< 16) |||
    ((chunk.getD (4 * i + 2) 0) <<< 8) ||| (chunk.getD (4 * i + 3) 0)

/-- Extend 16 schedule words to 80. -/
def extendWords (ws : List Nat) : List Nat :=
  (List.range 64).foldl (fun a i =>
    let j := i + 16
    a ++ [rotl ((a.getD (j - 3) 0) ^^^ (a.getD (j - 8) 0) ^^^
                (a.getD (j - 14) 0) ^^^ (a.getD (j - 16) 0)) 1]) ws

/-- One SHA-1 round. -/
def sha1Round (w : List Nat) (st : Nat × Nat × Nat × Nat × Nat) (i : Nat) :
    Nat × Nat × Nat × Nat × Nat :=
  let (a, b, c, d, e) := st
  let f :=
    if i < 20 then (b &&& c) ||| ((b ^^^ 4294967295) &&& d)
    else if i < 40 then b ^^^ c ^^^ d
    else if i < 60 then (b &&& c) ||| (b &&& d) ||| (c &&& d)
    else b ^^^ c ^^^ d
  let k :=
    if i < 20 then 1518500249
    else if i < 40 then 1859775393
    else if i < 60 then 2400959708
    else 3395469782
  let temp := (rotl a 5 + f + e + k + w.getD i 0) % two32
  (temp, a, rotl b 30, c, d)

/-- Process one 64-byte chunk, updating the five hash words. -/
def processChunk (hs : List Nat) (chunk : List Nat) : List Nat :=
  let w := extendWords (chunkWords chunk)
  let init := (hs.getD 0 0, hs.getD 1 0, hs.getD 2 0, hs.getD 3 0, hs.getD 4 0)
  let (a, b, c, d, e) := (List.range 80).foldl (sha1Round w) init
  [(hs.getD 0 0 + a) % two32, (hs.getD 1 0 + b) % two32, (hs.getD 2 0 + c) % two32,
   (hs.getD 3 0 + d) % two32, (hs.getD 4 0 + e) % two32]

/-- SHA-1 digest (20 bytes) of a byte list. -/
def sha1 (msg : List Nat) : List Nat :=
  let hs := (chunks64 (sha1pad msg)).foldl processChunk
    [1732584193, 4023233417, 2562383102, 271733878, 3285377520]
  (hs.map be32).flatten

/-! ## Hex encoding and UTF-8 bytes of a string -/

/-- Lowercase hex digit, as printed by the Go %x verb. -/
def hexDigitChar (n : Nat) : Char :=
  if n < 10 then Char.ofNat (48 + n) else Char.ofNat (87 + n)

def byteHex (b : Nat) : List Char := [hexDigitChar (b / 16), hexDigitChar (b % 16)]

def hexOfBytes (bs : List Nat) : String := String.mk (bs.map byteHex).flatten

/-- UTF-8 encoding of one code point (Go []byte(string) conversion). -/
def utf8Encode (c : Nat) : List Nat :=
  if c < 128 then [c]
  else if c < 2048 then [192 ||| (c >>> 6), 128 ||| (c &&& 63)]
  else if c < 65536 then
    [224 ||| (c >>> 12), 128 ||| ((c >>> 6) &&& 63), 128 ||| (c &&& 63)]
  else
    [240 ||| (c >>> 18), 128 ||| ((c >>> 12) &&& 63),
     128 ||| ((c >>> 6) &&& 63), 128 ||| (c &&& 63)]

/-- The bytes of a Go string (UTF-8). -/
def strBytes (s : String) : List Nat := (s.data.map fun ch => utf8Encode ch.toNat).flatten

def sha1Hex (msg : List Nat) : String := hexOfBytes (sha1 msg)

/-- Sanity check of the SHA-1 embedding against the FIPS 180 test vector. -/
theorem sha1_test_vector :
    sha1Hex (strBytes "abc") = "a9993e364706816aba3e25717850c26c9cd0d89d" := by decide

/-! ## Data model: rows of the notes / cards tables, media, deck state.

Each SQLite table of the in-memory deck database is a list of typed rows;
INSERT OR REPLACE on a table whose primary key is the id column deletes
every row carrying the new id and appends the new row. -/

/-- A row of the notes table (columns in schema order). -/
structure NoteRow where
  id : Int
  guid : String
  mid : Int
  mod : Int
  usn : Int
  tags : String
  flds : String
  sfld : String
  csum : Int
  flags : Int
  data : String
deriving Repr, DecidableEq

/-- A row of the cards table (columns in schema order). -/
structure CardRow where
  id : Int
  nid : Int
  did : Int
  ord : Int
  mod : Int
  usn : Int
  type : Int
  queue : Int
  due : Int
  ivl : Int
  factor : Int
  reps : Int
  lapses : Int
  left : Int
  odue : Int
  odid : Int
  flags : Int
  data : String
deriving Repr, DecidableEq

/-- Media represents a media file to be included in the deck. -/
structure Media where
  Filename : String
  Data : List Nat
deriving Repr, DecidableEq

/-- CardOptions represents optional parameters for adding cards. -/
structure CardOptions where
  Tags : List String
deriving Repr, DecidableEq

/-- One entry of the deck-definitions JSON blob in the col row.  The name
and id fields are the only ones the Go code ever reads or writes; of the
remaining seed fields, desc and usn are kept as representatives and the
rest ride along in the blob untouched and are elided here. -/
structure DeckEntry where
  name : String
  id : Int
  desc : String
  usn : Int
deriving Repr, DecidableEq

/-- Deck state: the Go Deck struct plus the three tables of its in-memory
database that the embedded operations touch (revlog and graves stay empty,
and the models blob of the col row is never consulted by a claim). -/
structure Deck where
  name : String
  notes : List NoteRow
  cards : List CardRow
  colDecks : List (String × DeckEntry)
  media : List Media
  topDeckID : Int
  topModelID : Int
deriving Repr, DecidableEq

/-! ## Translated operations -/

def separator : String := "\u001F"

/-- getNoteGUID: sha1 of fmt.Sprintf with the %d%s%s verb, hex encoded. -/
def getNoteGUID (deckID : Int) (front back : String) : String :=
  sha1Hex (strBytes (toString deckID ++ front ++ back))

def hexDigitVal (c : Char) : Nat :=
  if c.toNat ≤ 57 then c.toNat - 48 else c.toNat - 87

/-- checksum: first 8 hex characters of the SHA-1 of str, parsed base 16
(strconv.ParseInt, whose error is discarded by the source). -/
def checksum (str : String) : Int :=
  Int.ofNat (((sha1Hex (strBytes str)).data.take 8).foldl
    (fun acc c => acc * 16 + hexDigitVal c) 0)

/-- getID: SELECT col FROM table WHERE col >= ts ORDER BY col DESC LIMIT 1;
the probed column is passed as the list of its values. -/
def getID (vals : List Int) (ts : Int) : Int :=
  match (vals.filter fun v => decide (ts ≤ v)).max? with
  | none => ts
  | some m => m + 1

/-- Shared shape of getNoteID / getCardID: the id of the highest matching
row if the lookup query returned one, else a fresh id. -/
def resolveID (ids : List Int) (fresh : Int) : Int :=
  match ids.max? with
  | some i => i
  | none => fresh

/-- getNoteID: SELECT id FROM notes WHERE guid = ? ORDER BY id DESC LIMIT 1,
falling back to getID on the notes id column. -/
def getNoteID (d : Deck) (guid : String) (ts : Int) : Int :=
  resolveID ((d.notes.filter fun n => n.guid == guid).map NoteRow.id)
    (getID (d.notes.map NoteRow.id) ts)

/-- getCardID: SELECT id FROM cards WHERE nid = ? ORDER BY id DESC LIMIT 1,
falling back to getID on the cards id column. -/
def getCardID (d : Deck) (noteID : Int) (ts : Int) : Int :=
  resolveID ((d.cards.filter fun c => c.nid == noteID).map CardRow.id)
    (getID (d.cards.map CardRow.id) ts)

/-- strings.ReplaceAll with the one-character pattern of the source is a
character-wise replacement of every space (U+0020) by an underscore. -/
def replaceSpaceUnderscore (s : String) : String :=
  String.mk (s.data.map fun c => if c == Char.ofNat 32 then Char.ofNat 95 else c)

/-- The tag-normalization block of AddCardWithOptions: nil options or an
empty tag list leave tagsStr as the empty string. -/
def tagsString (opts : Option CardOptions) : String :=
  match opts with
  | some o =>
    if o.Tags.length > 0 then
      " " ++ String.intercalate " " (o.Tags.map replaceSpaceUnderscore) ++ " "
    else ""
  | none => ""

/-- INSERT OR REPLACE keyed by the id primary key. -/
def upsertNote (rows : List NoteRow) (r : NoteRow) : List NoteRow :=
  (rows.filter fun n => n.id != r.id) ++ [r]

/-- INSERT OR REPLACE keyed by the id primary key. -/
def upsertCard (rows : List CardRow) (r : CardRow) : List CardRow :=
  (rows.filter fun c => c.id != r.id) ++ [r]

/-- The note row bound to the notes INSERT OR REPLACE statement of
AddCardWithOptions (the source computes noteGUID and noteID into locals
first; both functions are pure, so recomputation is identical). -/
def noteRowOf (d : Deck) (front back : String) (opts : Option CardOptions)
    (now : Int) : NoteRow :=
  { id := getNoteID d (getNoteGUID d.topDeckID front back) now
    guid := getNoteGUID d.topDeckID front back
    mid := d.topModelID
    mod := getID (d.notes.map NoteRow.mod) now
    usn := -1
    tags := tagsString opts
    flds := front ++ separator ++ back
    sfld := front
    csum := checksum (front ++ separator ++ back)
    flags := 0
    data := "" }

/-- The card row bound to the cards INSERT OR REPLACE statement, computed
against the state d1 in which the note upsert already happened (the note
upsert does not change topDeckID or the cards table, so d1.topDeckID and
d1.cards coincide with the values the source reads from d). -/
def cardRowOf (d1 : Deck) (noteID : Int) (now : Int) : CardRow :=
  { id := getCardID d1 noteID now
    nid := noteID
    did := d1.topDeckID
    ord := 0
    mod := getID (d1.cards.map CardRow.mod) now
    usn := -1
    type := 0
    queue := 0
    due := 179
    ivl := 0
    factor := 0
    reps := 0
    lapses := 0
    left := 0
    odue := 0
    odid := 0
    flags := 0
    data := "" }

/-- AddCardWithOptions with the store error of each of its two Exec calls
made explicit: noteErr / cardErr is the error the notes / cards statement
reports (none on success).  now stands for time.Now().UnixMilli().
Returns the error surfaced to the caller and the resulting deck state. -/
def addCardRun (d : Deck) (front back : String) (opts : Option CardOptions)
    (now : Int) (noteErr cardErr : Option String) : Option String × Deck :=
  let noteGUID := getNoteGUID d.topDeckID front back
  let noteID := getNoteID d noteGUID now
  match noteErr with
  | some e => (some ("failed to insert note: " ++ e), d)
  | none =>
    let d1 := { d with notes := upsertNote d.notes (noteRowOf d front back opts now) }
    match cardErr with
    | some e => (some ("failed to insert card: " ++ e), d1)
    | none =>
      (none, { d1 with cards := upsertCard d1.cards (cardRowOf d1 noteID now) })

/-- AddCardWithOptions on the error-free store path. -/
def addCardWithOptions (d : Deck) (front back : String) (opts : Option CardOptions)
    (now : Int) : Deck :=
  (addCardRun d front back opts now none none).2

/-- AddCard delegates to AddCardWithOptions with nil options. -/
def addCard (d : Deck) (front back : String) (now : Int) : Deck :=
  addCardWithOptions d front back none now

/-- AddMedia appends to the ordered media list. -/
def addMedia (d : Deck) (filename : String) (data : List Nat) : Deck :=
  { d with media := d.media ++ [{ Filename := filename, Data := data }] }

/-- Modelled from the spec: the Go file defining AddAudio is not under src/
(only its tests and README document it).  Per section 4.4 of the spec it
registers the media and returns the bracketed sound marker the caller
embeds in card text. -/
def addAudio (d : Deck) (filename : String) (data : List Nat) : String × Deck :=
  ("[sound:" ++ filename ++ "]", addMedia d filename data)

/-- Modelled from the spec: the Go file defining AddImage is not under src/.
Per section 4.4 it registers the media and returns the image-embed markup. -/
def addImage (d : Deck) (filename : String) (data : List Nat) : String × Deck :=
  ("<img src=\"" ++ filename ++ "\">", addMedia d filename data)

/-- Modelled from the spec: the Go file defining AddVideo is not under src/.
Per section 4.4 it registers the media and returns the video-embed markup. -/
def addVideo (d : Deck) (filename : String) (data : List Nat) : String × Deck :=
  ("<video controls><source src=\"" ++ filename ++ "\"></video>",
   addMedia d filename data)

/-! ## Deck construction -/

/-- The two deck entries seeded by the createTemplate bootstrap script:
the fixed Default entry under key 1 and the renamable Template entry
under the placeholder key 1435588830424. -/
def seedDecks : List (String × DeckEntry) :=
  [("1", { name := "Default", id := 1, desc := "", usn := 0 }),
   ("1435588830424", { name := "Template", id := 1435588830424, desc := "", usn := -1 })]

/-- updateDeckName.  Go iterates the parsed decks map with a range loop
whose order is unspecified; order is that iteration order (a permutation
of the map keys), and lastKey ends up as its final element (or the empty
string for an empty map), exactly as the range loop computes it. -/
def updateDeckName (d : Deck) (order : List String) : Deck :=
  let lastKey := order.foldl (fun _ k => k) ""
  if lastKey != "" && lastKey != "1" then
    match List.lookup lastKey d.colDecks with
    | some e =>
      let e2 := { e with name := d.name, id := d.topDeckID }
      { d with colDecks :=
          (d.colDecks.filter fun p => p.1 != lastKey) ++ [(toString d.topDeckID, e2)] }
    | none => d
  else d

/-- NewDeck / NewDeckWithTemplate followed by initializeDatabase: execute
the bootstrap (fresh empty tables, seeded col row), then assign
topDeckID and topModelID by probing the did / mid columns of the empty
cards / notes tables at now = time.Now().UnixMilli(), then rename the
seed deck entry.  updateModel only rewrites the models blob, which no
claim consults, so it is not carried in the state. -/
def newDeck (name : String) (now : Int) (order : List String) : Deck :=
  let d0 : Deck :=
    { name := name, notes := [], cards := [], colDecks := seedDecks,
      media := [], topDeckID := 0, topModelID := 0 }
  let d1 := { d0 with
    topDeckID := getID (d0.cards.map CardRow.did) now
    topModelID := getID (d0.notes.map NoteRow.mid) now }
  updateDeckName d1 order

/-! ## Save: zip assembly -/

/-- One entry of the produced zip archive, in writing order. -/
structure ZipEntry where
  name : String
  content : List Nat
deriving Repr, DecidableEq

/-- encoding/json escaping of one character inside a string literal:
Go escapes quote, backslash, the HTML-sensitive characters, control
characters, and — unconditionally — the line separators U+2028 and
U+2029 (written as backslash-u2028 / backslash-u2029, lowercase hex). -/
def jsonEscapeChar (c : Char) : List Char :=
  if c == Char.ofNat 34 then [Char.ofNat 92, Char.ofNat 34]
  else if c == Char.ofNat 92 then [Char.ofNat 92, Char.ofNat 92]
  else if c == Char.ofNat 60 || c == Char.ofNat 62 || c == Char.ofNat 38 then
    Char.ofNat 92 :: Char.ofNat 117 :: Char.ofNat 48 :: Char.ofNat 48 :: byteHex c.toNat
  else if c.toNat < 32 then
    if c == Char.ofNat 10 then [Char.ofNat 92, Char.ofNat 110]
    else if c == Char.ofNat 13 then [Char.ofNat 92, Char.ofNat 114]
    else if c == Char.ofNat 9 then [Char.ofNat 92, Char.ofNat 116]
    else Char.ofNat 92 :: Char.ofNat 117 :: Char.ofNat 48 :: Char.ofNat 48 :: byteHex c.toNat
  else if c.toNat == 8232 || c.toNat == 8233 then
    Char.ofNat 92 :: Char.ofNat 117 ::
      (byteHex (c.toNat >>> 8) ++ byteHex (c.toNat &&& 255))
  else [c]
def jsonQuote (s : String) : String :=
  String.mk (Char.ofNat 34 :: (s.data.map jsonEscapeChar).flatten ++ [Char.ofNat 34])

/-- Sanity check of the marshal escaping (not itself a claim): the line
separator U+2028 and paragraph separator U+2029 are escaped in manifest
values exactly as Go json.Marshal writes them. -/
theorem jsonQuote_escapes_line_separators :
    jsonQuote "\u2028" = "\"\\u2028\"" ∧ jsonQuote "\u2029" = "\"\\u2029\"" := by
  exact ⟨by decide, by decide⟩

/-- Ascending insertion by key (the keys of a Go map are distinct, so any
comparison sort produces this order). -/
def insertByKey (p : String × String) : List (String × String) → List (String × String)
  | [] => [p]
  | q :: rest => if p.1 < q.1 then p :: q :: rest else q :: insertByKey p rest

/-- json.Marshal of a map[string]string writes the keys in sorted
(byte-wise, equivalently code-point) order. -/
def marshalStringMap (m : List (String × String)) : String :=
  "\x7b" ++ String.intercalate ","
    ((m.foldr insertByKey []).map fun p =>
      jsonQuote p.1 ++ ":" ++ jsonQuote p.2) ++ "\x7d"

/-- The mediaMap loop of Save: stringified index to original filename. -/
def mediaPairs (media : List Media) : List (String × String) :=
  media.enum.map fun p => (toString p.1, p.2.Filename)

/-- Save, given the bytes dbData the exportDatabase snapshot produced
(that snapshot is file-system and SQLite-engine I/O and stays outside the
embedding): write collection.anki2, then the media manifest, then each
media payload under its stringified index. -/
def save (d : Deck) (dbData : List Nat) : List ZipEntry :=
  let mediaJSON := marshalStringMap (mediaPairs d.media)
  { name := "collection.anki2", content := dbData } ::
  { name := "media", content := strBytes mediaJSON } ::
  (d.media.enum.map fun p => { name := toString p.1, content := p.2.Data })

/-! ## Supporting lemmas -/

theorem max?_int_mem {l : List Int} {a : Int} (h : l.max? = some a) : a ∈ l :=
  List.max?_mem (fun x y => max_choice x y) h

/-- A list with at most one p-match that contains the p-match e filters
to exactly [e]. -/
theorem filter_eq_singleton_of_mem {α : Type} {l : List α} {p : α → Bool} {e : α}
    (h1 : (l.filter p).length ≤ 1) (he : e ∈ l.filter p) : l.filter p = [e] := by
  have hpos : 0 < (l.filter p).length := List.length_pos.mpr (List.ne_nil_of_mem he)
  obtain ⟨a, ha⟩ := List.length_eq_one.mp (le_antisymm h1 hpos)
  rw [ha] at he ⊢
  simp only [List.mem_singleton] at he
  rw [he]

/-- Kernel of the idempotent-upsert argument, shared by the notes table
(p is the guid match) and the cards table (p is the nid match): when the
new row r carries the id that resolveID picked from the p-matches (or a
fallback when there is none), INSERT OR REPLACE leaves exactly r as the
p-matching content. -/
theorem upsert_filter_singleton {α : Type} (l : List α) (p : α → Bool) (idf : α → Int)
    (fresh : Int) (r : α) (hp : p r = true)
    (hid : idf r = resolveID ((l.filter p).map idf) fresh)
    (h1 : (l.filter p).length ≤ 1) :
    ((l.filter fun a => idf a != idf r) ++ [r]).filter p = [r] := by
  rw [List.filter_append, List.filter_filter]
  have hsing : List.filter p [r] = [r] := by simp [hp]
  rw [hsing]
  have hnil : (l.filter fun a => p a && (idf a != idf r)) = [] := by
    rw [List.filter_eq_nil_iff]
    intro a hal hcon
    rw [Bool.and_eq_true] at hcon
    have hpa : p a = true := hcon.1
    have hne : idf a ≠ idf r := bne_iff_ne.mp hcon.2
    rcases hmax : ((l.filter p).map idf).max? with _ | i
    · have hfe : l.filter p = [] :=
        List.map_eq_nil_iff.mp (List.max?_eq_none_iff.mp hmax)
      have : a ∈ l.filter p := List.mem_filter.mpr ⟨hal, hpa⟩
      rw [hfe] at this
      exact absurd this (List.not_mem_nil a)
    · obtain ⟨e, hef, hei⟩ := List.mem_map.mp (max?_int_mem hmax)
      have hfe : l.filter p = [e] := filter_eq_singleton_of_mem h1 hef
      have ha2 : a ∈ l.filter p := List.mem_filter.mpr ⟨hal, hpa⟩
      rw [hfe] at ha2
      simp only [List.mem_singleton] at ha2
      have hri : idf r = i := by rw [hid]; simp [resolveID, hmax]
      exact hne (by rw [ha2, hei, hri])
  rw [hnil, List.nil_append]

/-- After an upsert of r, resolving against the p-matches again returns
exactly the id of r. -/
theorem resolveID_after_upsert {α : Type} (l : List α) (p : α → Bool) (idf : α → Int)
    (fresh : Int) (r : α) (hp : p r = true)
    (hid : idf r = resolveID ((l.filter p).map idf) fresh)
    (h1 : (l.filter p).length ≤ 1) (fresh2 : Int) :
    resolveID ((((l.filter fun a => idf a != idf r) ++ [r]).filter p).map idf) fresh2 =
      idf r := by
  rw [upsert_filter_singleton l p idf fresh r hp hid h1]
  rfl

/-- Upserting on a key that the previous upsert already holds keeps the
table length unchanged. -/
theorem upsert_twice_length {α : Type} (l : List α) (q : α → Bool) (r r2 : α)
    (hq : q r = false) :
    ((((l.filter q) ++ [r]).filter q) ++ [r2]).length = ((l.filter q) ++ [r]).length := by
  simp [List.filter_append, List.filter_filter, hq, Bool.and_self]

/-! Projection equations of the translated operations (all definitional). -/

theorem addCardWO_notes (d : Deck) (f b : String) (o : Option CardOptions) (t : Int) :
    (addCardWithOptions d f b o t).notes =
      (d.notes.filter fun a => a.id != (noteRowOf d f b o t).id) ++ [noteRowOf d f b o t] :=
  rfl

/-- The deck state after only the note half of AddCardWithOptions. -/
def noteUpserted (d : Deck) (f b : String) (o : Option CardOptions) (t : Int) : Deck :=
  { d with notes := upsertNote d.notes (noteRowOf d f b o t) }

/-- The card row the full AddCardWithOptions call appends. -/
def cardRowFinal (d : Deck) (f b : String) (o : Option CardOptions) (t : Int) : CardRow :=
  cardRowOf (noteUpserted d f b o t) (getNoteID d (getNoteGUID d.topDeckID f b) t) t

theorem addCardWO_cards (d : Deck) (f b : String) (o : Option CardOptions) (t : Int) :
    (addCardWithOptions d f b o t).cards =
      (d.cards.filter fun a => a.id != (cardRowFinal d f b o t).id) ++
        [cardRowFinal d f b o t] :=
  rfl

theorem addCardWO_topDeckID (d : Deck) (f b : String) (o : Option CardOptions) (t : Int) :
    (addCardWithOptions d f b o t).topDeckID = d.topDeckID := rfl

theorem noteRowOf_id (d : Deck) (f b : String) (o : Option CardOptions) (t : Int) :
    (noteRowOf d f b o t).id = getNoteID d (getNoteGUID d.topDeckID f b) t := rfl

theorem noteRowOf_guid (d : Deck) (f b : String) (o : Option CardOptions) (t : Int) :
    (noteRowOf d f b o t).guid = getNoteGUID d.topDeckID f b := rfl

theorem cardRowFinal_nid (d : Deck) (f b : String) (o : Option CardOptions) (t : Int) :
    (cardRowFinal d f b o t).nid = getNoteID d (getNoteGUID d.topDeckID f b) t := rfl

theorem cardRowFinal_id (d : Deck) (f b : String) (o : Option CardOptions) (t : Int) :
    (cardRowFinal d f b o t).id =
      resolveID
        ((d.cards.filter fun c =>
          c.nid == getNoteID d (getNoteGUID d.topDeckID f b) t).map CardRow.id)
        (getID (d.cards.map CardRow.id) t) := rfl

/-- One AddCardWithOptions call on a deck with at most one note of the
content guid leaves exactly the freshly built note row as the guid match. -/
theorem addCard_once_notes (d : Deck) (f b : String) (o : Option CardOptions) (t : Int)
    (hg : (d.notes.filter fun n => n.guid == getNoteGUID d.topDeckID f b).length ≤ 1) :
    ((addCardWithOptions d f b o t).notes.filter fun n =>
        n.guid == getNoteGUID d.topDeckID f b) = [noteRowOf d f b o t] := by
  rw [addCardWO_notes]
  exact upsert_filter_singleton d.notes _ NoteRow.id (getID (d.notes.map NoteRow.id) t)
    (noteRowOf d f b o t) (by rw [noteRowOf_guid]; exact beq_self_eq_true _) rfl hg

/-- One AddCardWithOptions call on a deck with at most one card of the
resolved note id leaves exactly the freshly built card row as the nid
match. -/
theorem addCard_once_cards (d : Deck) (f b : String) (o : Option CardOptions) (t : Int)
    (hc : (d.cards.filter fun c =>
        c.nid == getNoteID d (getNoteGUID d.topDeckID f b) t).length ≤ 1) :
    ((addCardWithOptions d f b o t).cards.filter fun c =>
        c.nid == getNoteID d (getNoteGUID d.topDeckID f b) t) = [cardRowFinal d f b o t] := by
  rw [addCardWO_cards]
  exact upsert_filter_singleton d.cards _ CardRow.id (getID (d.cards.map CardRow.id) t)
    (cardRowFinal d f b o t) (by rw [cardRowFinal_nid]; exact beq_self_eq_true _)
    (cardRowFinal_id d f b o t) hc

/-- C1: For every deck and every pair of strings (front, back), calling
AddCard(front, back) twice with no other intervening mutations leaves
exactly one note row and exactly one card row for that content in the
store — the second call updates in place (same row ids) rather than
inserting second rows, so both table lengths are unchanged by it.  The
two hypotheses state that the starting deck itself holds at most one note
of that content guid and at most one card of the resolved note id, which
is an invariant of every deck built through the API. -/
theorem addCard_twice_idempotent (d : Deck) (f b : String) (o1 o2 : Option CardOptions)
    (t1 t2 : Int)
    (hg : (d.notes.filter fun n => n.guid == getNoteGUID d.topDeckID f b).length ≤ 1)
    (hc : (d.cards.filter fun c =>
        c.nid == getNoteID d (getNoteGUID d.topDeckID f b) t1).length ≤ 1) :
    ((addCardWithOptions (addCardWithOptions d f b o1 t1) f b o2 t2).notes.filter
        fun n => n.guid == getNoteGUID d.topDeckID f b).length = 1 ∧
    ((addCardWithOptions (addCardWithOptions d f b o1 t1) f b o2 t2).cards.filter
        fun c => c.nid == getNoteID d (getNoteGUID d.topDeckID f b) t1).length = 1 ∧
    (addCardWithOptions (addCardWithOptions d f b o1 t1) f b o2 t2).notes.length =
      (addCardWithOptions d f b o1 t1).notes.length ∧
    (addCardWithOptions (addCardWithOptions d f b o1 t1) f b o2 t2).cards.length =
      (addCardWithOptions d f b o1 t1).cards.length := by
  have hn1 := addCard_once_notes d f b o1 t1 hg
  have hc1 := addCard_once_cards d f b o1 t1 hc
  have hi2 : getNoteID (addCardWithOptions d f b o1 t1) (getNoteGUID d.topDeckID f b) t2
      = getNoteID d (getNoteGUID d.topDeckID f b) t1 := by
    show resolveID (((addCardWithOptions d f b o1 t1).notes.filter fun n =>
        n.guid == getNoteGUID d.topDeckID f b).map NoteRow.id)
      (getID ((addCardWithOptions d f b o1 t1).notes.map NoteRow.id) t2) =
      getNoteID d (getNoteGUID d.topDeckID f b) t1
    rw [hn1]
    exact noteRowOf_id d f b o1 t1
  have hlen1 : ((addCardWithOptions d f b o1 t1).notes.filter fun n =>
      n.guid == getNoteGUID d.topDeckID f b).length ≤ 1 := by
    rw [hn1]; simp
  have hcc2 : ((addCardWithOptions d f b o1 t1).cards.filter fun c =>
      c.nid == getNoteID (addCardWithOptions d f b o1 t1)
        (getNoteGUID d.topDeckID f b) t2).length ≤ 1 := by
    simp only [hi2]
    rw [hc1]; simp
  have hn2 := addCard_once_notes (addCardWithOptions d f b o1 t1) f b o2 t2 hlen1
  have hc2 := addCard_once_cards (addCardWithOptions d f b o1 t1) f b o2 t2 hcc2
  simp only [addCardWO_topDeckID] at hn2 hc2
  simp only [hi2] at hc2
  refine ⟨?_, ?_, ?_, ?_⟩
  · rw [hn2]; rfl
  · rw [hc2]; rfl
  · have hq2 : (fun a : NoteRow =>
        a.id != (noteRowOf (addCardWithOptions d f b o1 t1) f b o2 t2).id)
        = (fun a : NoteRow => a.id != (noteRowOf d f b o1 t1).id) := by
      funext a
      rw [noteRowOf_id, noteRowOf_id, addCardWO_topDeckID, hi2]
    rw [addCardWO_notes (addCardWithOptions d f b o1 t1) f b o2 t2,
      addCardWO_notes d f b o1 t1, hq2]
    exact upsert_twice_length d.notes _ (noteRowOf d f b o1 t1)
      (noteRowOf (addCardWithOptions d f b o1 t1) f b o2 t2) (by simp)
  · have hj2 : (cardRowFinal (addCardWithOptions d f b o1 t1) f b o2 t2).id
        = (cardRowFinal d f b o1 t1).id := by
      rw [cardRowFinal_id, cardRowFinal_id]
      simp only [addCardWO_topDeckID, hi2]
      rw [hc1]
      exact (cardRowFinal_id d f b o1 t1).symm
    have hq2c : (fun a : CardRow =>
        a.id != (cardRowFinal (addCardWithOptions d f b o1 t1) f b o2 t2).id)
        = (fun a : CardRow => a.id != (cardRowFinal d f b o1 t1).id) := by
      funext a; rw [hj2]
    rw [addCardWO_cards (addCardWithOptions d f b o1 t1) f b o2 t2,
      addCardWO_cards d f b o1 t1, hq2c]
    exact upsert_twice_length d.cards _ (cardRowFinal d f b o1 t1)
      (cardRowFinal (addCardWithOptions d f b o1 t1) f b o2 t2) (by simp)

/-- A concrete freshly constructed deck, used by the witness theorems. -/
def testDeck : Deck := newDeck "Test Deck" 1700000000000 ["1", "1435588830424"]

/-- C1 witness: the idempotence theorem applied to a fresh concrete deck. -/
theorem addCard_twice_idempotent_witness :
    ((addCardWithOptions (addCardWithOptions testDeck "Front" "Back" none 1700000000100)
        "Front" "Back" none 1700000000200).notes.filter
        fun n => n.guid == getNoteGUID testDeck.topDeckID "Front" "Back").length = 1 ∧
    ((addCardWithOptions (addCardWithOptions testDeck "Front" "Back" none 1700000000100)
        "Front" "Back" none 1700000000200).cards.filter
        fun c => c.nid == getNoteID testDeck
          (getNoteGUID testDeck.topDeckID "Front" "Back") 1700000000100).length = 1 ∧
    (addCardWithOptions (addCardWithOptions testDeck "Front" "Back" none 1700000000100)
        "Front" "Back" none 1700000000200).notes.length =
      (addCardWithOptions testDeck "Front" "Back" none 1700000000100).notes.length ∧
    (addCardWithOptions (addCardWithOptions testDeck "Front" "Back" none 1700000000100)
        "Front" "Back" none 1700000000200).cards.length =
      (addCardWithOptions testDeck "Front" "Back" none 1700000000100).cards.length :=
  addCard_twice_idempotent testDeck "Front" "Back" none none 1700000000100 1700000000200
    (by decide) (by decide)

/-- C2: the claim says every successful NewDeck construction reskeys the
seed deck entry to the new deck id and drops the placeholder key.  The
code instead takes the final key of an unspecified Go map iteration and
does nothing when that key is the fixed entry key 1, so for the iteration
order that visits the Template placeholder first and the key 1 last —
about half of real executions — the placeholder entry survives under its
old key with its old name and no entry for the new deck id exists.  This
theorem evaluates the code at that failing input. -/
theorem newDeck_skips_rename_when_iteration_ends_at_default :
    (["1435588830424", "1"] : List String).Perm (seedDecks.map Prod.fst) ∧
    (newDeck "My Deck" 1700000000000 ["1435588830424", "1"]).topDeckID = 1700000000000 ∧
    List.lookup "1700000000000"
      (newDeck "My Deck" 1700000000000 ["1435588830424", "1"]).colDecks = none ∧
    (List.lookup "1435588830424"
      (newDeck "My Deck" 1700000000000 ["1435588830424", "1"]).colDecks).map
        DeckEntry.name = some "Template" := by
  refine ⟨?_, by decide, by decide, by decide⟩
  decide

/-- Sanity complement to C2 (not itself a claim): for the lucky iteration
order that visits the key 1 first, the rename does happen as the spec
describes. -/
theorem newDeck_renames_when_template_last :
    (List.lookup "1700000000000"
      (newDeck "My Deck" 1700000000000 ["1", "1435588830424"]).colDecks).map
        DeckEntry.name = some "My Deck" ∧
    List.lookup "1435588830424"
      (newDeck "My Deck" 1700000000000 ["1", "1435588830424"]).colDecks = none := by
  decide

/-- C3 counterexample: two Deck instances created at the same millisecond
timestamp do NOT receive distinct topDeckIDs — each probes its own fresh
in-memory store, whose empty cards table makes getID return the raw
timestamp, so both decks get the identical id 1700000000000. -/
theorem same_millisecond_decks_get_equal_ids :
    (newDeck "Deck A" 1700000000000 ["1", "1435588830424"]).topDeckID =
      (newDeck "Deck B" 1700000000000 ["1", "1435588830424"]).topDeckID ∧
    (newDeck "Deck A" 1700000000000 ["1", "1435588830424"]).topDeckID =
      1700000000000 := by
  decide

/-- updateDeckName never changes the assigned topDeckID. -/
theorem updateDeckName_topDeckID (d : Deck) (order : List String) :
    (updateDeckName d order).topDeckID = d.topDeckID := by
  rw [updateDeckName]
  split
  · split <;> rfl
  · rfl

/-- C3 amended: the timestamp-probe runs against the private store of each
deck, so a freshly constructed deck always gets topDeckID equal to its
creation timestamp; two decks created at the same millisecond therefore
get the SAME id, not distinct ones (the probe only avoids collisions among
ids within one store). -/
theorem newDeck_topDeckID_eq_timestamp (n1 n2 : String) (ts : Int)
    (o1 o2 : List String) :
    (newDeck n1 ts o1).topDeckID = ts ∧ (newDeck n2 ts o2).topDeckID = ts ∧
    (newDeck n1 ts o1).topDeckID = (newDeck n2 ts o2).topDeckID := by
  have h : ∀ n o, (newDeck n ts o).topDeckID = ts := by
    intro n o
    rw [newDeck, updateDeckName_topDeckID]
    rfl
  exact ⟨h n1 o1, h n2 o2, by rw [h n1 o1, h n2 o2]⟩

/-- C4: the note guid is a deterministic function of (deck id, front,
back): the note row AddCard appends carries getNoteGUID(topDeckID, front,
back), and two computations over decks with the same deck id — whatever
their other state, card options or call timestamps, in the same run or
across runs — produce the same hex-encoded hash text. -/
theorem noteGUID_deterministic (d1 d2 : Deck) (f b : String)
    (o1 o2 : Option CardOptions) (t1 t2 : Int) (h : d1.topDeckID = d2.topDeckID) :
    (addCardWithOptions d1 f b o1 t1).notes.getLast?.map NoteRow.guid =
      some (getNoteGUID d1.topDeckID f b) ∧
    getNoteGUID d1.topDeckID f b = getNoteGUID d2.topDeckID f b ∧
    (addCardWithOptions d2 f b o2 t2).notes.getLast?.map NoteRow.guid =
      (addCardWithOptions d1 f b o1 t1).notes.getLast?.map NoteRow.guid := by
  have key : ∀ (d : Deck) (o : Option CardOptions) (t : Int),
      (addCardWithOptions d f b o t).notes.getLast?.map NoteRow.guid =
        some (getNoteGUID d.topDeckID f b) := by
    intro d o t
    rw [addCardWO_notes, List.getLast?_concat]
    rfl
  exact ⟨key d1 o1 t1, by rw [h], by rw [key d1 o1 t1, key d2 o2 t2, h]⟩

/-- C4 witness: two distinct concrete decks constructed at the same
timestamp carry equal topDeckIDs, and the determinism theorem applies. -/
theorem noteGUID_deterministic_witness :
    (addCardWithOptions testDeck "Front" "Back" none 1).notes.getLast?.map NoteRow.guid =
      some (getNoteGUID testDeck.topDeckID "Front" "Back") ∧
    getNoteGUID testDeck.topDeckID "Front" "Back" =
      getNoteGUID (newDeck "Other Deck" 1700000000000
        ["1435588830424", "1"]).topDeckID "Front" "Back" ∧
    (addCardWithOptions (newDeck "Other Deck" 1700000000000 ["1435588830424", "1"])
        "Front" "Back" none 2).notes.getLast?.map NoteRow.guid =
      (addCardWithOptions testDeck "Front" "Back" none 1).notes.getLast?.map
        NoteRow.guid :=
  noteGUID_deterministic testDeck
    (newDeck "Other Deck" 1700000000000 ["1435588830424", "1"])
    "Front" "Back" none none 1 2 (by decide)

/-- C5 counterexample: the claim says internal whitespace in a tag is
replaced by underscores, but for the tag holding an internal tab the code
stores the tab verbatim — strings.ReplaceAll only replaces the space
character U+0020 — so the claimed serialization with an underscore in
place of the tab is not produced. -/
theorem tags_internal_tab_kept :
    tagsString (some { Tags := ["a\tb"] }) = " a\tb " ∧
    Char.ofNat 9 ∈ (" a\tb ").data ∧
    tagsString (some { Tags := ["a\tb"] }) ≠ " a_b " :=
  ⟨by decide, by decide, by decide⟩

/-- C5 amended: every space character U+0020 of a tag — internal, leading
or trailing — is replaced by an underscore (other whitespace such as tabs
is kept verbatim); the tags are joined by single spaces inside exactly one
leading and one trailing space; the string is empty when the tag list is
absent or empty; that serialization is what AddCardWithOptions stores in
the tags column of the upserted note; and the example list of the claim
serializes exactly as stated. -/
theorem tags_serialization (tags : List String) (h : tags ≠ [])
    (d : Deck) (f b : String) (t : Int) :
    tagsString (some { Tags := tags }) =
      " " ++ String.intercalate " "
        (tags.map fun tag =>
          String.mk (tag.data.map fun ch =>
            if ch == Char.ofNat 32 then Char.ofNat 95 else ch)) ++ " " ∧
    ((addCardWithOptions d f b (some { Tags := tags }) t).notes.getLast?.map
        NoteRow.tags) = some (tagsString (some { Tags := tags })) ∧
    tagsString none = "" ∧
    tagsString (some { Tags := [] }) = "" ∧
    tagsString (some { Tags := ["tag1", "tag2", "multi word tag"] }) =
      " tag1 tag2 multi_word_tag " := by
  refine ⟨?_, ?_, rfl, rfl, by decide⟩
  · show (if tags.length > 0 then
        " " ++ String.intercalate " " (tags.map replaceSpaceUnderscore) ++ " "
      else "") = _
    rw [if_pos (by simpa using List.length_pos.mpr h)]
    rfl
  · rw [addCardWO_notes, List.getLast?_concat]
    rfl

/-- C5 amended witness: the serialization theorem applied to the example
tag list of the claim on a concrete deck. -/
theorem tags_serialization_witness :
    tagsString (some { Tags := ["tag1", "tag2", "multi word tag"] }) =
      " " ++ String.intercalate " "
        (["tag1", "tag2", "multi word tag"].map fun tag =>
          String.mk (tag.data.map fun ch =>
            if ch == Char.ofNat 32 then Char.ofNat 95 else ch)) ++ " " ∧
    ((addCardWithOptions testDeck "Front" "Back"
        (some { Tags := ["tag1", "tag2", "multi word tag"] }) 7).notes.getLast?.map
        NoteRow.tags) =
      some (tagsString (some { Tags := ["tag1", "tag2", "multi word tag"] })) ∧
    tagsString none = "" ∧
    tagsString (some { Tags := [] }) = "" ∧
    tagsString (some { Tags := ["tag1", "tag2", "multi word tag"] }) =
      " tag1 tag2 multi_word_tag " :=
  tags_serialization ["tag1", "tag2", "multi word tag"] (by decide)
    testDeck "Front" "Back" 7

/-- C7: every successful AddCard/AddCardWithOptions upserts a note row
with usn -1, flds = front, U+001F, back concatenated, sfld = front, csum
the 32-bit-truncated hash of the combined field text, flags 0, empty
data, and a card row with ordinal 0, the deck id, usn -1, type 0,
queue 0, due 179 and zero ivl, factor, reps, lapses, left, odue, odid
and flags. -/
theorem addCard_row_values (d : Deck) (f b : String) (o : Option CardOptions) (t : Int) :
    ∃ n c, (addCardWithOptions d f b o t).notes.getLast? = some n ∧
      (addCardWithOptions d f b o t).cards.getLast? = some c ∧
      n.guid = getNoteGUID d.topDeckID f b ∧ n.mid = d.topModelID ∧ n.usn = -1 ∧
      n.tags = tagsString o ∧ n.flds = f ++ separator ++ b ∧ n.sfld = f ∧
      n.csum = checksum (f ++ separator ++ b) ∧ n.flags = 0 ∧ n.data = "" ∧
      c.nid = n.id ∧ c.did = d.topDeckID ∧ c.ord = 0 ∧ c.usn = -1 ∧ c.type = 0 ∧
      c.queue = 0 ∧ c.due = 179 ∧ c.ivl = 0 ∧ c.factor = 0 ∧ c.reps = 0 ∧
      c.lapses = 0 ∧ c.left = 0 ∧ c.odue = 0 ∧ c.odid = 0 ∧ c.flags = 0 ∧
      c.data = "" :=
  ⟨noteRowOf d f b o t, cardRowFinal d f b o t,
    by rw [addCardWO_notes]; exact List.getLast?_concat _,
    by rw [addCardWO_cards]; exact List.getLast?_concat _,
    rfl, rfl, rfl, rfl, rfl, rfl, rfl, rfl, rfl, rfl, rfl, rfl, rfl, rfl, rfl,
    rfl, rfl, rfl, rfl, rfl, rfl, rfl, rfl, rfl, rfl⟩

/-- C8: when the note upsert succeeds and the card upsert then fails, the
store error is surfaced to the caller, the already-upserted note row
remains in the notes table, and the cards table is untouched — with no
pre-existing card for the resolved note id, the note is left orphaned
(no compensating rollback). -/
theorem addCard_card_failure_orphan_note (d : Deck) (f b : String)
    (o : Option CardOptions) (t : Int) (e : String)
    (hfresh : ∀ c ∈ d.cards, c.nid ≠ getNoteID d (getNoteGUID d.topDeckID f b) t) :
    (addCardRun d f b o t none (some e)).1 =
      some ("failed to insert card: " ++ e) ∧
    (addCardRun d f b o t none (some e)).2.notes.getLast? =
      some (noteRowOf d f b o t) ∧
    (addCardRun d f b o t none (some e)).2.cards = d.cards ∧
    ∀ c ∈ (addCardRun d f b o t none (some e)).2.cards,
      c.nid ≠ (noteRowOf d f b o t).id :=
  ⟨rfl, List.getLast?_concat _, rfl, hfresh⟩

/-- C8 witness: the orphan-note theorem applied to a fresh concrete deck
and a concrete store error. -/
theorem addCard_card_failure_orphan_note_witness :
    (addCardRun testDeck "Q" "A" none 5 none (some "disk full")).1 =
      some ("failed to insert card: " ++ "disk full") ∧
    (addCardRun testDeck "Q" "A" none 5 none (some "disk full")).2.notes.getLast? =
      some (noteRowOf testDeck "Q" "A" none 5) ∧
    (addCardRun testDeck "Q" "A" none 5 none (some "disk full")).2.cards =
      testDeck.cards ∧
    ∀ c ∈ (addCardRun testDeck "Q" "A" none 5 none (some "disk full")).2.cards,
      c.nid ≠ (noteRowOf testDeck "Q" "A" none 5).id :=
  addCard_card_failure_orphan_note testDeck "Q" "A" none 5 "disk full" (by decide)

/-- C9: AddAudio appends the media entry and returns the bracketed sound
marker, AddImage the image-embed markup and AddVideo the video-embed
markup, character for character as the claim states (the three helpers
are modelled from the spec because their defining Go file is absent from
the sources; their tests pin the same strings). -/
theorem media_helper_markup (d : Deck) (filename : String) (data : List Nat) :
    (addAudio d filename data).1 = "[sound:" ++ filename ++ "]" ∧
    (addImage d filename data).1 = "<img src=\"" ++ filename ++ "\">" ∧
    (addVideo d filename data).1 =
      "<video controls><source src=\"" ++ filename ++ "\"></video>" ∧
    (addAudio d filename data).2.media =
      d.media ++ [{ Filename := filename, Data := data }] ∧
    (addImage d filename data).2.media =
      d.media ++ [{ Filename := filename, Data := data }] ∧
    (addVideo d filename data).2.media =
      d.media ++ [{ Filename := filename, Data := data }] ∧
    (addAudio d "x.mp3" data).1 = "[sound:x.mp3]" ∧
    (addImage d "x.png" data).1 = "<img src=\"x.png\">" ∧
    (addVideo d "x.mp4" data).1 = "<video controls><source src=\"x.mp4\"></video>" :=
  ⟨rfl, rfl, rfl, rfl, rfl, rfl, rfl, rfl, rfl⟩

/-- C10: the guid input is the undelimited concatenation of deck id,
front and back, so two distinct pairs with equal concatenation — such as
(ab, c) and (a, bc) — hash to the same guid, and the second AddCard call
replaces the first note instead of creating a second one: the notes table
keeps its length and the single guid-matching row afterwards holds the
fields written by the second call.  The second hypothesis (the deck holds at most one
note of that guid already) is an invariant of API-built decks. -/
theorem guid_concat_collision_replaces (d : Deck) (f1 b1 f2 b2 : String)
    (o1 o2 : Option CardOptions) (t1 t2 : Int)
    (hcat : f1 ++ b1 = f2 ++ b2)
    (hg : (d.notes.filter fun n =>
        n.guid == getNoteGUID d.topDeckID f1 b1).length ≤ 1) :
    getNoteGUID d.topDeckID f1 b1 = getNoteGUID d.topDeckID f2 b2 ∧
    (addCardWithOptions (addCardWithOptions d f1 b1 o1 t1) f2 b2 o2 t2).notes.length =
      (addCardWithOptions d f1 b1 o1 t1).notes.length ∧
    ((addCardWithOptions (addCardWithOptions d f1 b1 o1 t1) f2 b2 o2 t2).notes.filter
        fun n => n.guid == getNoteGUID d.topDeckID f1 b1).map NoteRow.flds =
      [f2 ++ separator ++ b2] := by
  have hguid : getNoteGUID d.topDeckID f1 b1 = getNoteGUID d.topDeckID f2 b2 := by
    show sha1Hex (strBytes (toString d.topDeckID ++ f1 ++ b1)) =
      sha1Hex (strBytes (toString d.topDeckID ++ f2 ++ b2))
    rw [String.append_assoc, String.append_assoc, hcat]
  have hn1 := addCard_once_notes d f1 b1 o1 t1 hg
  have hi2 : getNoteID (addCardWithOptions d f1 b1 o1 t1)
      (getNoteGUID d.topDeckID f1 b1) t2
      = getNoteID d (getNoteGUID d.topDeckID f1 b1) t1 := by
    show resolveID (((addCardWithOptions d f1 b1 o1 t1).notes.filter fun n =>
        n.guid == getNoteGUID d.topDeckID f1 b1).map NoteRow.id)
      (getID ((addCardWithOptions d f1 b1 o1 t1).notes.map NoteRow.id) t2) =
      getNoteID d (getNoteGUID d.topDeckID f1 b1) t1
    rw [hn1]
    exact noteRowOf_id d f1 b1 o1 t1
  have hlen1 : ((addCardWithOptions d f1 b1 o1 t1).notes.filter fun n =>
      n.guid == getNoteGUID d.topDeckID f1 b1).length ≤ 1 := by
    rw [hn1]; simp
  have hlen1b : ((addCardWithOptions d f1 b1 o1 t1).notes.filter fun n =>
      n.guid == getNoteGUID (addCardWithOptions d f1 b1 o1 t1).topDeckID f2 b2).length
      ≤ 1 := by
    simp only [addCardWO_topDeckID, ← hguid]
    exact hlen1
  have hn2 := addCard_once_notes (addCardWithOptions d f1 b1 o1 t1) f2 b2 o2 t2 hlen1b
  simp only [addCardWO_topDeckID, ← hguid] at hn2
  refine ⟨hguid, ?_, ?_⟩
  · have hq2 : (fun a : NoteRow =>
        a.id != (noteRowOf (addCardWithOptions d f1 b1 o1 t1) f2 b2 o2 t2).id)
        = (fun a : NoteRow => a.id != (noteRowOf d f1 b1 o1 t1).id) := by
      funext a
      rw [noteRowOf_id, noteRowOf_id, addCardWO_topDeckID, ← hguid, hi2]
    rw [addCardWO_notes (addCardWithOptions d f1 b1 o1 t1) f2 b2 o2 t2,
      addCardWO_notes d f1 b1 o1 t1, hq2]
    exact upsert_twice_length d.notes _ (noteRowOf d f1 b1 o1 t1)
      (noteRowOf (addCardWithOptions d f1 b1 o1 t1) f2 b2 o2 t2) (by simp)
  · rw [hn2]
    rfl

/-- C10 witness: the collision theorem applied to the pairs (ab, c) and
(a, bc) on a fresh concrete deck. -/
theorem guid_concat_collision_replaces_witness :
    getNoteGUID testDeck.topDeckID "ab" "c" = getNoteGUID testDeck.topDeckID "a" "bc" ∧
    (addCardWithOptions (addCardWithOptions testDeck "ab" "c" none 11)
        "a" "bc" none 12).notes.length =
      (addCardWithOptions testDeck "ab" "c" none 11).notes.length ∧
    ((addCardWithOptions (addCardWithOptions testDeck "ab" "c" none 11)
        "a" "bc" none 12).notes.filter
        fun n => n.guid == getNoteGUID testDeck.topDeckID "ab" "c").map NoteRow.flds =
      ["a" ++ separator ++ "bc"] :=
  guid_concat_collision_replaces testDeck "ab" "c" "a" "bc" none none 11 12
    (by decide) (by decide)

/-- C6: Save produces a zip whose entries are exactly collection.anki2
holding the database snapshot bytes, media holding the JSON manifest that
maps each stringified index to the filename of that media entry, and one
entry per media item named by its stringified index holding its raw
payload, index-aligned with the manifest. -/
theorem save_zip_structure (d : Deck) (dbData : List Nat) :
    (save d dbData).map ZipEntry.name =
      "collection.anki2" :: "media" :: ((List.range d.media.length).map toString) ∧
    (save d dbData).head? = some { name := "collection.anki2", content := dbData } ∧
    (save d dbData)[1]? =
      some { name := "media",
             content := strBytes (marshalStringMap (mediaPairs d.media)) } ∧
    ∀ i, (h : i < d.media.length) →
      (save d dbData)[2 + i]? =
        some { name := toString i, content := d.media[i].Data } := by
  refine ⟨?_, rfl, ?_, ?_⟩
  · show "collection.anki2" :: "media" ::
        ((d.media.enum.map fun p =>
          ({ name := toString p.1, content := p.2.Data } : ZipEntry)).map ZipEntry.name)
      = _
    congr 1
    congr 1
    rw [List.map_map]
    show d.media.enum.map (toString ∘ Prod.fst) = _
    rw [show (toString ∘ Prod.fst : Nat × Media → String)
        = (fun p : Nat × Media => toString p.1) from rfl]
    rw [show (fun p : Nat × Media => toString p.1)
        = (toString ∘ (Prod.fst : Nat × Media → Nat)) from rfl]
    rw [← List.map_map, List.enum_map_fst]
  · show ({ name := "collection.anki2", content := dbData } ::
      { name := "media", content := strBytes (marshalStringMap (mediaPairs d.media)) } ::
      (d.media.enum.map fun p =>
        ({ name := toString p.1, content := p.2.Data } : ZipEntry)))[1]? = _
    simp
  · intro i h
    show ({ name := "collection.anki2", content := dbData } ::
      { name := "media", content := strBytes (marshalStringMap (mediaPairs d.media)) } ::
      (d.media.enum.map fun p =>
        ({ name := toString p.1, content := p.2.Data } : ZipEntry)))[2 + i]? = _
    rw [show 2 + i = (i + 1) + 1 by omega]
    rw [List.getElem?_cons_succ, List.getElem?_cons_succ, List.getElem?_map,
      List.getElem?_enum, List.getElem?_eq_getElem h]
    rfl

/-- A concrete deck with one registered media file, for the C6 witness. -/
def mediaDeck : Deck := addMedia testDeck "x.mp3" [1, 2, 3]

/-- C6 witness: the round-trip of the spec — a deck with one media file
saves to the three entries collection.anki2, media and 0, and the media
manifest is exactly the JSON object mapping 0 to the registered
filename. -/
theorem save_zip_structure_witness :
    (save mediaDeck [9, 9]).map ZipEntry.name = ["collection.anki2", "media", "0"] ∧
    (save mediaDeck [9, 9])[2 + 0]? = some { name := toString 0, content := mediaDeck.media[0].Data } ∧
    marshalStringMap (mediaPairs mediaDeck.media) = "\x7b\"0\":\"x.mp3\"\x7d" := by
  refine ⟨?_, (save_zip_structure mediaDeck [9, 9]).2.2.2 0 (by decide), by decide⟩
  have h := (save_zip_structure mediaDeck [9, 9]).1
  rw [h]
  decide

end AnkiDeck
